import Mathlib

/-!
Verification of the BratSiemens detection-distribution pipeline.

Shallow embedding of:
- `ExtractAndPlace/Streamlit/ble_detection_app/data_storage.py` (`DataStorage`),
- `ExtractAndPlace/Streamlit/pages/ble_detection_app/flask_server.py` (`receive_data`),
- `raspi/raspi_detection_sender.py` (`send_image_data`, the capture loop),
- `ExtractAndPlace/Streamlit/ble_detection_app/image_utils.py` (`draw_detections`).

Conventions of the embedding:
- JSON payload dicts become the `Payload` structure; a key absent from the
  dict is `none` / the Python `dict.get` default.
- Wall-clock time (`time.time()`) is an abstract `Nat` clock value threaded
  explicitly into every operation that reads the clock.
- Pixel coordinates, box corners and confidences are rationals (`Rat`):
  the Python floats are used exactly, no rounding step appears in the code
  paths modelled here except the explicit `int(...)` truncations, which are
  modelled explicitly.
-/

/-- A detection record as built by the sender and consumed downstream:
`{'class': ..., 'confidence': ..., 'center_px': [cx, cy]}`. -/
structure Detection where
  cls : String
  confidence : Rat
  center_px : Rat × Rat
  deriving DecidableEq

/-- A submitted payload dict. Every field is optional or defaulted exactly as
the consuming code reads it: `data.get('raw_image', False)` makes `raw_image`
a total `Bool` defaulting to `false`; `image`, `timestamp`, `crop_shape` may
be absent (`none`). -/
structure Payload where
  image : Option String := none
  timestamp : Option Nat := none
  detections : List Detection := []
  crop_shape : Option (Nat × Nat) := none
  raw_image : Bool := false
  deriving DecidableEq

/-- The state of `DataStorage` (data_storage.py). `_latest_data = {}` at
construction is modelled as `none`; `_max_history = 100`. -/
structure DataStorage where
  latest_data : Option Payload := none
  latest_raw_data : Option Payload := none
  detection_history : List Payload := []
  raw_history : List Payload := []
  max_history : Nat := 100
  deriving DecidableEq

/-- The freshly constructed global `data_store = DataStorage()`. -/
def data_store_init : DataStorage := {}

/-- The in-place `data['timestamp'] = time.time()` performed at the top of
`store_data`: the receipt time unconditionally overwrites any timestamp the
payload arrived with. -/
def stamp (data : Payload) (now : Nat) : Payload :=
  { data with timestamp := some now }

/-- The history update of `store_data`: `history.append(data)` followed by
`if len(history) > self._max_history: history.pop(0)`. -/
def pushHist (hist : List Payload) (d : Payload) (maxh : Nat) : List Payload :=
  let h := hist ++ [d]
  if h.length > maxh then h.drop 1 else h

/-- `DataStorage.store_data(data)`: stamps the receipt time, then routes on
`data.get('raw_image', False)` to exactly one channel, overwriting that
channel's latest and appending to its bounded history. -/
def DataStorage.store_data (s : DataStorage) (data : Payload) (now : Nat) :
    DataStorage :=
  let data := stamp data now
  if data.raw_image then
    { s with latest_raw_data := some data
             raw_history := pushHist s.raw_history data s.max_history }
  else
    { s with latest_data := some data
             detection_history := pushHist s.detection_history data s.max_history }

/-- `DataStorage.get_latest_data` (returns a copy of the dict; copying is
identity in a functional embedding). -/
def DataStorage.get_latest_data (s : DataStorage) : Option Payload :=
  s.latest_data

/-- `DataStorage.get_latest_raw_data`. -/
def DataStorage.get_latest_raw_data (s : DataStorage) : Option Payload :=
  s.latest_raw_data

/-- `DataStorage.get_detection_count`: `len(self._latest_data.get('detections', []))`. -/
def DataStorage.get_detection_count (s : DataStorage) : Nat :=
  match s.latest_data with
  | some d => d.detections.length
  | none => 0

/-- `DataStorage.get_history`. -/
def DataStorage.get_history (s : DataStorage) : List Payload :=
  s.detection_history

/-- `DataStorage.get_raw_history`. -/
def DataStorage.get_raw_history (s : DataStorage) : List Payload :=
  s.raw_history

/-- `DataStorage.clear_data`: resets both latest slots and both histories
(`_max_history` is untouched). -/
def DataStorage.clear_data (s : DataStorage) : DataStorage :=
  { s with latest_data := none
           latest_raw_data := none
           detection_history := []
           raw_history := [] }

/-- A sequence of `store_data` calls, each paired with the clock value read
inside it. -/
def runStores (s : DataStorage) (calls : List (Payload × Nat)) : DataStorage :=
  calls.foldl (fun st c => st.store_data c.1 c.2) s

/-- The sub-sequence of calls routed to the raw channel, each as the value
`store_data` actually writes (receipt-stamped). -/
def stampedRaw (calls : List (Payload × Nat)) : List Payload :=
  (calls.filter fun c => c.1.raw_image).map fun c => stamp c.1 c.2

/-- The sub-sequence of calls routed to the processed channel, each as the
value `store_data` actually writes (receipt-stamped). -/
def stampedProcessed (calls : List (Payload × Nat)) : List Payload :=
  (calls.filter fun c => !c.1.raw_image).map fun c => stamp c.1 c.2

/-- The last `n` elements of a list, in order. -/
def takeLast (n : Nat) (l : List α) : List α :=
  l.drop (l.length - n)

/-- The receipt-stamped value written by the last call of a sequence, if any. -/
def lastStamped (calls : List (Payload × Nat)) : Option Payload :=
  calls.getLast?.map fun c => stamp c.1 c.2

/-!
Embedding of the `/data` route handler `receive_data` in `flask_server.py`,
in the deployed configuration (both `data_store` and `ble_handler` imported
successfully, i.e. non-`None`).

The handler body is sequential Python:
1. `if not request.is_json: return ..., 415` (modelled by request `none`);
2. `content = request.get_json()`;
3. `data_store.store_data(content)`;
4. `asyncio.run(self.ble_handler.send_data(content))` — `asyncio.run`
   creates an event loop, runs the coroutine TO COMPLETION and only then
   returns, so the BLE dispatch both starts and completes before the
   handler proceeds;
5. `return jsonify({'status': 'success', 'received_count': len(content.get('detections', []))}), 200`.

The observable actions of one handler invocation are recorded as an ordered
event trace.
-/

/-- HTTP response of the `/data` route. -/
inductive ServerResponse where
  | success (received_count : Nat)
  | unsupportedMediaType
  | serverError (msg : String)
  deriving DecidableEq

/-- One observable action of the `/data` handler, in program order. -/
inductive ServerEvent where
  | storeData (p : Payload)
  | bleDispatchStart (p : Payload)
  | bleDispatchComplete (p : Payload)
  | respond (r : ServerResponse)
  deriving DecidableEq

/-- The `/data` handler `receive_data`: given the storage state, the parsed
JSON body (`none` when the request is not JSON), and the receipt clock,
returns the new storage state, the ordered event trace, and the HTTP
response. No field of the body is inspected before storing: there is no
image-field or detections-field validation anywhere in the handler. -/
def receive_data (s : DataStorage) (req : Option Payload) (now : Nat) :
    DataStorage × List ServerEvent × ServerResponse :=
  match req with
  | none => (s, [ServerEvent.respond ServerResponse.unsupportedMediaType],
      ServerResponse.unsupportedMediaType)
  | some content =>
      let s' := s.store_data content now
      let resp := ServerResponse.success content.detections.length
      (s', [ServerEvent.storeData content,
            ServerEvent.bleDispatchStart content,
            ServerEvent.bleDispatchComplete content,
            ServerEvent.respond resp], resp)

/-- Index of the first response event in a handler trace. -/
def firstRespondIdx (tr : List ServerEvent) : Option Nat :=
  tr.findIdx? fun e =>
    match e with
    | ServerEvent.respond _ => true
    | _ => false

/-- Index of the first dispatch-completion event in a handler trace. -/
def firstCompleteIdx (tr : List ServerEvent) : Option Nat :=
  tr.findIdx? fun e =>
    match e with
    | ServerEvent.bleDispatchComplete _ => true
    | _ => false

/-- True when the trace contains both a response and a dispatch completion
and the dispatch completion happens strictly before the response: the
acknowledgment waits on actuator dispatch completion. -/
def ackWaitsOnDispatch (tr : List ServerEvent) : Bool :=
  match firstRespondIdx tr, firstCompleteIdx tr with
  | some i, some j => j < i
  | _, _ => false

/-!
Embedding of the producer side, `raspi/raspi_detection_sender.py`.
-/

/-- A captured (or cropped) camera frame: its pixel dimensions and the
base64 text `encode_image_to_base64` produces for it. -/
structure Frame where
  width : Nat
  height : Nat
  b64 : String
  deriving DecidableEq

/-- One YOLO result box as read in the main loop: class id, confidence and
the `xyxy` corner coordinates. -/
structure Box where
  cls : Nat
  conf : Rat
  x1 : Rat
  y1 : Rat
  x2 : Rat
  y2 : Rat
  deriving DecidableEq

/-- The payload dict built in `send_image_data`: dimensions from
`image.shape`, the base64 image, a fresh timestamp string and
`detections if not is_raw else []`. -/
structure SentPayload where
  image : String
  timestamp : String
  detections : List Detection
  crop_shape : Nat × Nat
  raw_image : Bool
  deriving DecidableEq

/-- `send_image_data(image, detections, is_raw)`: the payload it posts. -/
def send_image_data (img : Frame) (detections : List Detection)
    (is_raw : Bool) (ts : String) : SentPayload :=
  { image := img.b64
    timestamp := ts
    detections := if is_raw then [] else detections
    crop_shape := (img.width, img.height)
    raw_image := is_raw }

/-- The detection-list construction of the processed branch of `main`: for
each result box whose class id is in `ids`, the center is the box midpoint
and the y coordinate is flipped, `center_px = [cx, h - cy]` with
`cx = (x1+x2)/2`, `cy = (y1+y2)/2`. -/
def processBoxes (ids : List Nat) (names : Nat → String) (h : Rat)
    (boxes : List Box) : List Detection :=
  boxes.filterMap fun box =>
    if box.cls ∈ ids then
      some { cls := names box.cls
             confidence := box.conf
             center_px := ((box.x1 + box.x2) / 2,
                           h - (box.y1 + box.y2) / 2) }
    else none

/-- One observable action of a capture-loop iteration. -/
inductive IterEvent where
  | detectorInvoked
  | submitted (p : SentPayload)
  deriving DecidableEq

/-- One iteration of the capture loop in `main`, after `capture_frame`.
In raw mode (`send_raw_mode` true) the frame, when present, is submitted
directly via `send_image_data(frame, [], is_raw=True)` — the YOLO model is
never called. In processed mode the cropped frame, when present, is run
through the model (`detectorInvoked`), the kept boxes become flipped-center
detections, and the result is submitted with `is_raw=False`. -/
def loopIteration (send_raw_mode : Bool) (frame : Option Frame)
    (cropped : Option Frame) (detect : Frame → List Box) (ids : List Nat)
    (names : Nat → String) (ts : String) : List IterEvent :=
  if send_raw_mode then
    match frame with
    | some f => [IterEvent.submitted (send_image_data f [] true ts)]
    | none => []
  else
    match cropped with
    | none => []
    | some c =>
        let boxes := detect c
        let dets := processBoxes ids names (c.height : Rat) boxes
        [IterEvent.detectorInvoked,
         IterEvent.submitted (send_image_data c dets false ts)]

/-!
Embedding of the monitor's drawing step,
`ImageProcessor.draw_detections` in `image_utils.py`:
`x, y = map(int, det['center_px'])` then `y = img.shape[0] - y`.
-/

/-- Python `int()` on a real number: truncation toward zero. -/
def ratTruncToInt (q : Rat) : Int :=
  if q < 0 then ⌈q⌉ else ⌊q⌋

/-- The pixel position at which `draw_detections` draws one detection whose
transmitted center is `center_px`, on an image of height `imgHeight`
(`img.shape[0]`): both coordinates pass through `int(...)` and the y
coordinate is then flipped to `img.shape[0] - y`. -/
def draw_detections_pos (imgHeight : Nat) (center_px : Rat × Rat) :
    Int × Int :=
  let x := ratTruncToInt center_px.1
  let y := ratTruncToInt center_px.2
  (x, (imgHeight : Int) - y)


/-!
Concrete inputs used to instantiate the theorems below.
-/

/-- The JSON body of a submission that lacks the `image` field (and every
other field): all dict keys absent. -/
def missingImagePayload : Payload := {}

/-- A well-formed processed submission with no detections. -/
def imgPayloadEx : Payload := { image := some "img" }

/-- A submission that already carries a timestamp (value 7). -/
def timestampedPayload : Payload := { image := some "img", timestamp := some 7 }

/-- A raw-channel submission. -/
def rawPayloadEx : Payload := { image := some "img", raw_image := true }

/-- The payload used for the 101-store scenario; the receipt clock value
serves as the increasing sequence marker. -/
def procBase : Payload := { image := some "seq" }

/-- The 101 sequential processed stores of the capacity scenario: payload
number `i` (for `i = 1..101`) is stored at clock value `i`. -/
def seq101 : List (Payload × Nat) :=
  (List.range 101).map fun i => (procBase, i + 1)

/-- The handler trace of one accepted submission. -/
def traceEx : List ServerEvent :=
  (receive_data data_store_init (some imgPayloadEx) 5).2.1

/-- A concrete captured frame. -/
def frameEx : Frame := { width := 640, height := 480, b64 := "imgdata" }

/-- A detector stub for instantiating loop-iteration theorems. -/
def detectEx : Frame → List Box := fun _ => []

/-- A class-name table stub. -/
def namesEx : Nat → String := fun _ => "triangle"

/-- A concrete YOLO box: class 0, corners (10,20)-(30,50). -/
def boxEx : Box := { cls := 0, conf := 9/10, x1 := 10, y1 := 20, x2 := 30, y2 := 50 }

/-- The detection `processBoxes` builds from `boxEx` at frame height 480:
center (20, 35), flipped to (20, 445). -/
def detEx : Detection :=
  { cls := namesEx boxEx.cls
    confidence := boxEx.conf
    center_px := ((boxEx.x1 + boxEx.x2) / 2, 480 - (boxEx.y1 + boxEx.y2) / 2) }

theorem stamp_raw_image (p : Payload) (now : Nat) :
    (stamp p now).raw_image = p.raw_image := rfl

theorem stamp_timestamp (p : Payload) (now : Nat) :
    (stamp p now).timestamp = some now := rfl

theorem takeLast_length (n : Nat) (l : List α) :
    (takeLast n l).length = l.length - (l.length - n) := by
  simp [takeLast]

theorem pushHist_takeLast (m : Nat) (l : List Payload) (d : Payload) :
    pushHist (takeLast m l) d m = takeLast m (l ++ [d]) := by
  unfold pushHist takeLast
  by_cases hlm : l.length < m
  · have h0 : l.length - m = 0 := by omega
    have h1 : l.length + 1 - m = 0 := by omega
    rw [h0, List.drop_zero]
    rw [if_neg (by simp; omega)]
    simp [h1]
  · have hlen : (l.drop (l.length - m)).length = m := by
      simp
      omega
    rw [if_pos (by simp [hlen])]
    rw [List.drop_append_eq_append_drop, List.drop_append_eq_append_drop,
      List.drop_drop, hlen]
    have e1 : l.length - m + 1 = (l ++ [d]).length - m := by
      simp; omega
    have e2 : 1 - m = (l ++ [d]).length - m - l.length := by
      simp; omega
    rw [e1, e2]

theorem store_data_max (s : DataStorage) (p : Payload) (now : Nat) :
    (s.store_data p now).max_history = s.max_history := by
  unfold DataStorage.store_data
  by_cases hr : (stamp p now).raw_image <;> simp [hr]

theorem runStores_append (s : DataStorage) (l : List (Payload × Nat))
    (c : Payload × Nat) :
    runStores s (l ++ [c]) = (runStores s l).store_data c.1 c.2 := by
  simp [runStores, List.foldl_append]

theorem runStores_max (s : DataStorage) (calls : List (Payload × Nat)) :
    (runStores s calls).max_history = s.max_history := by
  induction calls using List.reverseRecOn with
  | nil => rfl
  | append_singleton l c ih => rw [runStores_append, store_data_max, ih]

theorem runStores_latest_raw (calls : List (Payload × Nat)) :
    (runStores data_store_init calls).latest_raw_data =
      lastStamped (calls.filter fun c => c.1.raw_image) := by
  induction calls using List.reverseRecOn with
  | nil => rfl
  | append_singleton l c ih =>
      rw [runStores_append]
      by_cases hr : c.1.raw_image
      · simp [DataStorage.store_data, stamp_raw_image, hr, List.filter_append,
          lastStamped]
      · simp only [DataStorage.store_data, stamp_raw_image]
        rw [if_neg (by simp [hr])]
        simpa [List.filter_append, hr] using ih

theorem runStores_latest_processed (calls : List (Payload × Nat)) :
    (runStores data_store_init calls).latest_data =
      lastStamped (calls.filter fun c => !c.1.raw_image) := by
  induction calls using List.reverseRecOn with
  | nil => rfl
  | append_singleton l c ih =>
      rw [runStores_append]
      by_cases hr : c.1.raw_image
      · simp only [DataStorage.store_data, stamp_raw_image]
        rw [if_pos (by simp [hr])]
        simpa [List.filter_append, hr] using ih
      · simp [DataStorage.store_data, stamp_raw_image, hr, List.filter_append,
          lastStamped]

theorem runStores_detection_history (calls : List (Payload × Nat)) :
    (runStores data_store_init calls).detection_history =
      takeLast 100 (stampedProcessed calls) := by
  induction calls using List.reverseRecOn with
  | nil => rfl
  | append_singleton l c ih =>
      rw [runStores_append]
      by_cases hr : c.1.raw_image
      · simp only [DataStorage.store_data, stamp_raw_image]
        rw [if_pos (by simp [hr])]
        simpa [stampedProcessed, List.filter_append, hr] using ih
      · simp only [DataStorage.store_data, stamp_raw_image]
        rw [if_neg (by simp [hr])]
        have hmax : (runStores data_store_init l).max_history = 100 :=
          runStores_max data_store_init l
        simp only []
        rw [hmax, ih, pushHist_takeLast]
        simp [stampedProcessed, List.filter_append, hr]

theorem runStores_raw_history (calls : List (Payload × Nat)) :
    (runStores data_store_init calls).raw_history =
      takeLast 100 (stampedRaw calls) := by
  induction calls using List.reverseRecOn with
  | nil => rfl
  | append_singleton l c ih =>
      rw [runStores_append]
      by_cases hr : c.1.raw_image
      · simp only [DataStorage.store_data, stamp_raw_image]
        rw [if_pos (by simp [hr])]
        have hmax : (runStores data_store_init l).max_history = 100 :=
          runStores_max data_store_init l
        simp only []
        rw [hmax, ih, pushHist_takeLast]
        simp [stampedRaw, List.filter_append, hr]
      · simp only [DataStorage.store_data, stamp_raw_image]
        rw [if_neg (by simp [hr])]
        simpa [stampedRaw, List.filter_append, hr] using ih

/-!
Claim theorems.
-/

/-- C1 counterexample: the handler performs no image-field validation. The
concrete JSON body `{}` lacks the `image` field, yet `receive_data` answers
`success` (HTTP 200) and mutates the processed channel: its latest and its
history both change. -/
theorem C1_counterexample :
    missingImagePayload.image = none
  ∧ (receive_data data_store_init (some missingImagePayload) 5).2.2
      = ServerResponse.success 0
  ∧ (receive_data data_store_init (some missingImagePayload) 5).1.get_latest_data
      ≠ data_store_init.get_latest_data
  ∧ (receive_data data_store_init (some missingImagePayload) 5).1.get_history
      ≠ data_store_init.get_history := by
  decide

/-- C1 (amended): `receive_data` validates nothing about the JSON body: a
payload lacking the `image` field is accepted with a success acknowledgment
and stored (so the channel is mutated exactly as for any other payload);
the only submission-level rejection is for a non-JSON request body
(HTTP 415), and in that case no mutation occurs. -/
theorem C1_no_image_validation (s : DataStorage) (p : Payload) (now : Nat)
    (hp : p.image = none) :
    (receive_data s (some p) now).2.2
        = ServerResponse.success p.detections.length
  ∧ (receive_data s (some p) now).1 = s.store_data p now
  ∧ (receive_data s none now).1 = s
  ∧ (receive_data s none now).2.2 = ServerResponse.unsupportedMediaType :=
  ⟨rfl, rfl, rfl, rfl⟩

/-- C1 witness: the amended claim instantiated at the concrete body `{}`. -/
theorem C1_witness :
    missingImagePayload.image = none
  ∧ (receive_data data_store_init (some missingImagePayload) 7).2.2
      = ServerResponse.success missingImagePayload.detections.length :=
  ⟨rfl, (C1_no_image_validation data_store_init missingImagePayload 7 rfl).1⟩

/-- C2 counterexample: for the concrete accepted submission `imgPayloadEx`,
the handler trace is store, dispatch start, dispatch completion, and only
then the acknowledgment — `asyncio.run` blocks until the BLE send finishes,
so the acknowledgment does wait on actuator dispatch completion. -/
theorem C2_counterexample :
    traceEx = [ServerEvent.storeData imgPayloadEx,
               ServerEvent.bleDispatchStart imgPayloadEx,
               ServerEvent.bleDispatchComplete imgPayloadEx,
               ServerEvent.respond (ServerResponse.success 0)]
  ∧ ackWaitsOnDispatch traceEx = true := by
  decide

/-- C2 (amended): for every accepted submission the ingest acknowledgment is
returned only after actuator dispatch completes: the handler runs the BLE
send to completion synchronously (`asyncio.run`) between storing and
responding, so dispatch completion strictly precedes the acknowledgment in
every handler trace. -/
theorem C2_ack_after_dispatch (s : DataStorage) (p : Payload) (now : Nat) :
    (receive_data s (some p) now).2.1
        = [ServerEvent.storeData p, ServerEvent.bleDispatchStart p,
           ServerEvent.bleDispatchComplete p,
           ServerEvent.respond (ServerResponse.success p.detections.length)]
  ∧ ackWaitsOnDispatch (receive_data s (some p) now).2.1 = true :=
  ⟨rfl, rfl⟩

/-- C3: for any sequence of `store_data` calls starting from the fresh
store, the raw-latest getter returns exactly the value written by the last
call with `raw_image` true and the processed-latest getter the value written
by the last call with `raw_image` false (each as stored, i.e.
receipt-stamped); since this holds for arbitrarily long sequences, the
value is unaffected by history eviction. -/
theorem C3_get_latest_returns_last_stored (calls : List (Payload × Nat)) :
    (runStores data_store_init calls).get_latest_raw_data
        = lastStamped (calls.filter fun c => c.1.raw_image)
  ∧ (runStores data_store_init calls).get_latest_data
        = lastStamped (calls.filter fun c => !c.1.raw_image) :=
  ⟨runStores_latest_raw calls, runStores_latest_processed calls⟩

set_option maxRecDepth 20000 in
/-- C4: after any sequence of stores from the fresh store, each channel's
history is exactly the most recent (at most 100) payloads routed to that
channel, in arrival order — so its length never exceeds 100 and eviction is
strictly FIFO; and in the concrete 101-store scenario the processed history
has length exactly 100, its first element is payload number 2 and the
latest is payload number 101. -/
theorem C4_history_bounded_fifo :
    (∀ calls : List (Payload × Nat),
        ((runStores data_store_init calls).get_history).length ≤ 100
      ∧ ((runStores data_store_init calls).get_raw_history).length ≤ 100
      ∧ (runStores data_store_init calls).get_history
          = takeLast 100 (stampedProcessed calls)
      ∧ (runStores data_store_init calls).get_raw_history
          = takeLast 100 (stampedRaw calls))
  ∧ ((runStores data_store_init seq101).get_history).length = 100
  ∧ ((runStores data_store_init seq101).get_history).head?
      = some (stamp procBase 2)
  ∧ (runStores data_store_init seq101).get_latest_data
      = some (stamp procBase 101) := by
  have sc1 : ((runStores data_store_init seq101).get_history).length = 100 := by
    decide
  have sc2 : ((runStores data_store_init seq101).get_history).head?
      = some (stamp procBase 2) := by
    decide
  have sc3 : (runStores data_store_init seq101).get_latest_data
      = some (stamp procBase 101) := by
    decide
  refine ⟨fun calls => ⟨?_, ?_, runStores_detection_history calls,
    runStores_raw_history calls⟩, sc1, sc2, sc3⟩
  · rw [show (runStores data_store_init calls).get_history
        = takeLast 100 (stampedProcessed calls) from
      runStores_detection_history calls]
    rw [takeLast_length]
    omega
  · rw [show (runStores data_store_init calls).get_raw_history
        = takeLast 100 (stampedRaw calls) from runStores_raw_history calls]
    rw [takeLast_length]
    omega

/-- C5 counterexample: `timestampedPayload` arrives already carrying
timestamp 7, yet after storing it at receipt clock 42 the stored latest
carries timestamp 42 — `store_data` does not preserve the payload's own
timestamp. -/
theorem C5_counterexample :
    timestampedPayload.timestamp = some 7
  ∧ ((data_store_init.store_data timestampedPayload 42).get_latest_data).bind
        Payload.timestamp = some 42
  ∧ ¬ (((data_store_init.store_data timestampedPayload 42).get_latest_data).bind
        Payload.timestamp = timestampedPayload.timestamp) := by
  decide

/-- C5 (amended): `store_data` unconditionally overwrites the payload's
timestamp with the receipt time — the stored value on the payload's channel
is always the submitted payload with `timestamp` replaced by the receipt
clock, whether or not the payload already carried one; no other field is
modified. -/
theorem C5_store_overwrites_timestamp (s : DataStorage) (p : Payload)
    (now : Nat) :
    ((p.raw_image = true →
        (s.store_data p now).get_latest_raw_data = some (stamp p now))
  ∧ (p.raw_image = false →
        (s.store_data p now).get_latest_data = some (stamp p now)))
  ∧ (stamp p now).timestamp = some now
  ∧ (stamp p now).image = p.image
  ∧ (stamp p now).detections = p.detections
  ∧ (stamp p now).crop_shape = p.crop_shape
  ∧ (stamp p now).raw_image = p.raw_image := by
  refine ⟨⟨fun hp => ?_, fun hp => ?_⟩, rfl, rfl, rfl, rfl, rfl⟩ <;>
    simp [DataStorage.store_data, DataStorage.get_latest_raw_data,
      DataStorage.get_latest_data, stamp_raw_image, hp]

/-- C5 witness: the amended claim instantiated at `timestampedPayload`
stored at receipt clock 42. -/
theorem C5_witness :
    timestampedPayload.raw_image = false
  ∧ (data_store_init.store_data timestampedPayload 42).get_latest_data
      = some (stamp timestampedPayload 42) :=
  ⟨rfl, (C5_store_overwrites_timestamp data_store_init timestampedPayload
    42).1.2 rfl⟩

/-- C6: storing a raw payload leaves the processed channel's latest and
history untouched, and storing a processed payload leaves the raw channel's
latest and history untouched — for every starting state. -/
theorem C6_cross_channel_frame (s : DataStorage) (p : Payload) (now : Nat) :
    (p.raw_image = true →
        (s.store_data p now).get_latest_data = s.get_latest_data
      ∧ (s.store_data p now).get_history = s.get_history)
  ∧ (p.raw_image = false →
        (s.store_data p now).get_latest_raw_data = s.get_latest_raw_data
      ∧ (s.store_data p now).get_raw_history = s.get_raw_history) := by
  constructor <;> intro hp <;>
    simp [DataStorage.store_data, DataStorage.get_latest_data,
      DataStorage.get_latest_raw_data, DataStorage.get_history,
      DataStorage.get_raw_history, stamp_raw_image, hp]

/-- C6 witness: the frame property instantiated at a concrete raw store and
a concrete processed store on the fresh state. -/
theorem C6_witness :
    ((data_store_init.store_data rawPayloadEx 3).get_latest_data
        = data_store_init.get_latest_data)
  ∧ ((data_store_init.store_data imgPayloadEx 3).get_latest_raw_data
        = data_store_init.get_latest_raw_data) :=
  ⟨((C6_cross_channel_frame data_store_init rawPayloadEx 3).1 rfl).1,
   ((C6_cross_channel_frame data_store_init imgPayloadEx 3).2 rfl).1⟩

/-- C7: after `clear_data` both channels' latest are empty and both
histories are empty — so any subsequent `get_latest` returns empty — and
`clear_data` is idempotent: clearing twice equals clearing once. Holds from
every state. -/
theorem C7_clear_idempotent_empty (s : DataStorage) :
    s.clear_data.get_latest_data = none
  ∧ s.clear_data.get_latest_raw_data = none
  ∧ s.clear_data.get_history = []
  ∧ s.clear_data.get_raw_history = []
  ∧ s.clear_data.clear_data = s.clear_data := by
  simp [DataStorage.clear_data, DataStorage.get_latest_data,
    DataStorage.get_latest_raw_data, DataStorage.get_history,
    DataStorage.get_raw_history]

/-- C8: every detection emitted by the processed-mode loop comes from some
kept result box, and its transmitted center y coordinate is exactly
`frameHeight - (y1 + y2)/2` — the frame height minus the midpoint of the
box's y corners, computed in exact (rational) arithmetic. -/
theorem C8_coordinate_flip_exact (ids : List Nat) (names : Nat → String)
    (h : Rat) (boxes : List Box) (d : Detection)
    (hd : d ∈ processBoxes ids names h boxes) :
    ∃ b, b ∈ boxes ∧ b.cls ∈ ids ∧ d.cls = names b.cls
      ∧ d.confidence = b.conf
      ∧ d.center_px = ((b.x1 + b.x2) / 2, h - (b.y1 + b.y2) / 2) := by
  unfold processBoxes at hd
  rw [List.mem_filterMap] at hd
  obtain ⟨b, hb, hbd⟩ := hd
  by_cases hcls : b.cls ∈ ids
  · rw [if_pos hcls] at hbd
    injection hbd with hbd
    subst hbd
    exact ⟨b, hb, hcls, rfl, rfl, rfl⟩
  · rw [if_neg hcls] at hbd
    exact Option.noConfusion hbd

/-- C8 witness: the flip property instantiated at `boxEx` (corners
(10,20)-(30,50)) in a 480-high frame: the emitted center is (20, 445) with
445 = 480 - 35. -/
theorem C8_witness :
    detEx ∈ processBoxes [0] namesEx 480 [boxEx]
  ∧ ∃ b, b ∈ [boxEx] ∧ b.cls ∈ [0] ∧ detEx.cls = namesEx b.cls
      ∧ detEx.confidence = b.conf
      ∧ detEx.center_px = ((b.x1 + b.x2) / 2, 480 - (b.y1 + b.y2) / 2) :=
  ⟨by simp [processBoxes, detEx, boxEx],
   C8_coordinate_flip_exact [0] namesEx 480 [boxEx] detEx
    (by simp [processBoxes, detEx, boxEx])⟩

/-- C9: in raw mode a loop iteration never invokes the detector, and every
payload it submits has an empty detection list and `raw_image` true. -/
theorem C9_raw_mode_no_detector (frame : Option Frame)
    (cropped : Option Frame) (detect : Frame → List Box) (ids : List Nat)
    (names : Nat → String) (ts : String) :
    IterEvent.detectorInvoked ∉ loopIteration true frame cropped detect ids names ts
  ∧ ∀ p : SentPayload,
      IterEvent.submitted p ∈ loopIteration true frame cropped detect ids names ts →
        p.detections = [] ∧ p.raw_image = true := by
  cases frame with
  | none => simp [loopIteration]
  | some f =>
      refine ⟨by simp [loopIteration], fun p hp => ?_⟩
      simp [loopIteration] at hp
      subst hp
      exact ⟨rfl, rfl⟩

/-- C9 witness: a raw-mode iteration on the concrete frame `frameEx`
submits a payload with no detections and `raw_image` true. -/
theorem C9_witness :
    (send_image_data frameEx [] true "t").detections = []
  ∧ (send_image_data frameEx [] true "t").raw_image = true :=
  (C9_raw_mode_no_detector (some frameEx) none detectEx [0] namesEx "t").2
    (send_image_data frameEx [] true "t") (by decide)

/-- C10: `draw_detections` plots a detection with transmitted center
`(cx, yq)` at display row `imageHeight - int(yq)`; when the image height
equals the frame height `hgt` and the detector center row was `cy` (with
`0 ≤ cy ≤ hgt`, so the transmitted value is `hgt - cy`), the displayed row
is `⌈cy⌉` — the original detector row up to the sub-pixel error of the
integer truncation (strictly less than one pixel, and zero whenever `cy` is
a whole pixel row): the two flips cancel. -/
theorem C10_draw_round_trip (hgt : Nat) (cx cy : Rat) (h0 : 0 ≤ cy)
    (h1 : cy ≤ (hgt : Rat)) :
    (∀ yq : Rat,
        (draw_detections_pos hgt (cx, yq)).2 = (hgt : Int) - ratTruncToInt yq)
  ∧ (draw_detections_pos hgt (cx, (hgt : Rat) - cy)).2 = ⌈cy⌉
  ∧ |(⌈cy⌉ : Rat) - cy| < 1
  ∧ ∀ n : Int, cy = (n : Rat) →
      (draw_detections_pos hgt (cx, (hgt : Rat) - cy)).2 = n := by
  have hdisp : (draw_detections_pos hgt (cx, (hgt : Rat) - cy)).2 = ⌈cy⌉ := by
    show (hgt : Int) - ratTruncToInt ((hgt : Rat) - cy) = ⌈cy⌉
    unfold ratTruncToInt
    rw [if_neg (not_lt.mpr (by linarith))]
    have e : (hgt : Rat) - cy = ((hgt : Int) : Rat) + (-cy) := by
      push_cast
      ring
    rw [e, Int.floor_int_add, Int.floor_neg]
    ring
  refine ⟨fun yq => rfl, hdisp, ?_, fun n hn => ?_⟩
  · rw [abs_lt]
    constructor
    · linarith [Int.le_ceil cy]
    · linarith [Int.ceil_lt_add_one cy]
  · rw [hdisp, hn, Int.ceil_intCast]

/-- C10 witness: the round trip instantiated at frame height 10 and
detector row 1/2: the transmitted value is 10 - 1/2 and the displayed row
is the ceiling 1. -/
theorem C10_witness :
    (0 : Rat) ≤ 1/2
  ∧ (1/2 : Rat) ≤ ((10 : Nat) : Rat)
  ∧ (draw_detections_pos 10 (3, ((10 : Nat) : Rat) - 1/2)).2 = ⌈(1/2 : Rat)⌉ :=
  ⟨by norm_num, by norm_num,
   (C10_draw_round_trip 10 3 (1/2) (by norm_num) (by norm_num)).2.1⟩
